import Mathlib

/-!
Verification development for the Syntul-Masters registration server
(`server.py`).  The Python source is shallowly embedded: pure helpers
(`sanitize`, the distance filter, `make_xlsx`) become Lean functions on
strings and lists; the file-system effects of `save_registrations` become an
explicit operation trace; the dynamic (duck-typed) handling of the request
body in `Handler.do_POST` becomes an `Except`-valued evaluator over a JSON
value type, where Python runtime exceptions (AttributeError, TypeError,
KeyError) are explicit error results.
-/

namespace SyntulMasters

/-! ### String helpers: Python `str.strip` and `html.escape` -/

/-- Characters removed by Python `str.strip()` (the ASCII whitespace set;
exotic Unicode whitespace is not used anywhere in the repository). -/
def isPySpace (c : Char) : Bool :=
  c = ' ' || c = '\t' || c = '\n' || c = '\r' || c = '\x0b' || c = '\x0c'

/-- Python `value.strip()`: drop leading and trailing whitespace. -/
def pyStrip (s : String) : String :=
  ⟨((s.data.dropWhile isPySpace).reverse.dropWhile isPySpace).reverse⟩

/-- Per-character replacement performed by Python `html.escape(s)` (with its
default `quote=True`): the five markup-significant characters become HTML
entities, everything else is kept.  `html.escape` performs the `&`
replacement first, so the sequential `str.replace` calls are extensionally
this character-wise map. -/
def escapeChar (c : Char) : List Char :=
  if c = '&' then ['&', 'a', 'm', 'p', ';']
  else if c = '<' then ['&', 'l', 't', ';']
  else if c = '>' then ['&', 'g', 't', ';']
  else if c = '"' then ['&', 'q', 'u', 'o', 't', ';']
  else if c = '\'' then ['&', '#', 'x', '2', '7', ';']
  else [c]

/-- Python `html.escape` as a map over the characters of the string. -/
def htmlEscape (s : String) : String :=
  ⟨(s.data.map escapeChar).flatten⟩

/-- `server.py` line 60: `sanitize(value) = escape(str(value).strip())`
(for string-valued input, where `str` is the identity). -/
def sanitize (value : String) : String :=
  htmlEscape (pyStrip value)

/-! ### Fixed catalogues (`server.py` lines 38-40) -/

/-- `VALID_GENDERS = {"М", "Ж"}` (membership is all that is used). -/
def VALID_GENDERS : List String := ["М", "Ж"]

/-- `VALID_BOATS = {"К-1", "К-2", "К-4", "С-1", "С-2", "С-4"}`. -/
def VALID_BOATS : List String := ["К-1", "К-2", "К-4", "С-1", "С-2", "С-4"]

/-- `VALID_DISTANCES = {"200 м", "500 м", "1000 м", "5000 м", "Эстафета 4×200"}`. -/
def VALID_DISTANCES : List String :=
  ["200 м", "500 м", "1000 м", "5000 м", "Эстафета 4×200"]

/-! ### Payload and registration records -/

/-- A submission payload in the well-typed domain: a JSON object whose text
fields, when present, hold strings, and whose `distances` field, when
present, holds a list of strings.  (`Handler.do_POST` reads fields with
`body.get(field, "")`; absence is modelled with `Option`.)  The fully
dynamic domain, where fields may hold arbitrary JSON, is modelled separately
below by `Json`. -/
structure Payload where
  surname : Option String := none
  firstname : Option String := none
  patronymic : Option String := none
  birthdate : Option String := none
  gender : Option String := none
  country : Option String := none
  city : Option String := none
  rank : Option String := none
  team : Option String := none
  boat_class : Option String := none
  phone : Option String := none
  distances : Option (List String) := none
deriving DecidableEq

/-- Python `body.get(field, "")` for the string fields of a payload. -/
def getField (p : Payload) (f : String) : String :=
  if f = "surname" then p.surname.getD ""
  else if f = "firstname" then p.firstname.getD ""
  else if f = "patronymic" then p.patronymic.getD ""
  else if f = "birthdate" then p.birthdate.getD ""
  else if f = "gender" then p.gender.getD ""
  else if f = "country" then p.country.getD ""
  else if f = "city" then p.city.getD ""
  else if f = "rank" then p.rank.getD ""
  else if f = "team" then p.team.getD ""
  else if f = "boat_class" then p.boat_class.getD ""
  else if f = "phone" then p.phone.getD ""
  else ""

/-- A finalized registration entry (`server.py` lines 240-255). -/
structure Registration where
  id : String
  timestamp : String
  surname : String
  firstname : String
  patronymic : String
  birthdate : String
  gender : String
  country : String
  city : String
  rank : String
  team : String
  boat_class : String
  phone : String
  distances : List String
deriving DecidableEq

/-! ### Validation (`server.py` lines 220-233) -/

/-- The `required` list of `Handler.do_POST` (line 221), in source order. -/
def requiredFields : List String :=
  ["surname", "firstname", "birthdate", "gender", "country", "city", "team",
   "boat_class", "phone"]

/-- Rejection reasons produced by the validation section of
`Handler.do_POST`: a required field blank after trimming (the 400 response
whose message names the field), a gender outside `VALID_GENDERS`, or a boat
class outside `VALID_BOATS`. -/
inductive RejectionReason where
  | missingField (f : String)
  | badGender
  | badBoatClass
deriving DecidableEq

/-- The `for field in required` loop (lines 222-225): the first required
field whose value is blank after `strip()`, if any. -/
def firstBlankRequired (p : Payload) : Option String :=
  requiredFields.find? (fun f => decide (pyStrip (getField p f) = ""))

/-- The validation section of `Handler.do_POST` (lines 220-233): reject on
the first blank required field, then reject a gender outside
`VALID_GENDERS`, then reject a boat class outside `VALID_BOATS`; otherwise
accept. -/
def validate (p : Payload) : Except RejectionReason Unit :=
  match firstBlankRequired p with
  | some f => .error (.missingField f)
  | none =>
    if getField p "gender" ∈ VALID_GENDERS then
      if getField p "boat_class" ∈ VALID_BOATS then .ok ()
      else .error .badBoatClass
    else .error .badGender

/-- The distances loop of `Handler.do_POST` (lines 235-238): keep, in input
order, exactly the candidates that belong to `VALID_DISTANCES`. -/
def filterDistances (ds : List String) : List String :=
  ds.filter (fun d => decide (d ∈ VALID_DISTANCES))

/-- The `entry` dictionary of `Handler.do_POST` (lines 240-255), with the
freshly generated id and the commit timestamp supplied as parameters (the
source draws them from `uuid.uuid4()` and `datetime.now()`). -/
def mkEntry (id ts : String) (body : Payload) : Registration :=
  { id := id,
    timestamp := ts,
    surname := sanitize (getField body "surname"),
    firstname := sanitize (getField body "firstname"),
    patronymic := sanitize (getField body "patronymic"),
    birthdate := sanitize (getField body "birthdate"),
    gender := getField body "gender",
    country := sanitize (getField body "country"),
    city := sanitize (getField body "city"),
    rank := sanitize (getField body "rank"),
    team := sanitize (getField body "team"),
    boat_class := getField body "boat_class",
    phone := sanitize (getField body "phone"),
    distances := filterDistances (body.distances.getD []) }

/-! ### The store commit (`server.py` lines 257-259) -/

/-- `registrations.append(entry)` on the freshly read document:
the new canonical sequence is the prior one with the entry at the end. -/
def commitAppend (prior : List Registration) (entry : Registration) :
    List Registration :=
  prior ++ [entry]

/-- The single-threaded `http.server.HTTPServer` handles requests one at a
time, so a batch of submissions is processed by running the whole
read-append-save section of `Handler.do_POST` for each request in arrival
order. -/
def runAppends (store : List Registration) (es : List Registration) :
    List Registration :=
  es.foldl commitAppend store

/-! ### Persistence as a file-system operation trace
(`save_registrations`, `server.py` lines 54-57) -/

/-- `DATA_DIR = os.path.join(..., "data")` (relative part). -/
def DATA_DIR : String := "data"

/-- `DATA_FILE = os.path.join(DATA_DIR, "registrations.json")`. -/
def DATA_FILE : String := "data/registrations.json"

/-- File-system operations a write path can perform, at the granularity
relevant to durability: directory creation, a truncating open for writing
(`open(path, "w")` creates or empties the file), writing content into an
open file, and an atomic rename. -/
inductive FsOp where
  | makeDirs (path : String)
  | truncOpenWrite (path : String)
  | writeContent (path : String) (content : String)
  | rename (src : String) (dst : String)
deriving DecidableEq

/-- The operation trace of `save_registrations(data)` (lines 54-57):
`os.makedirs(DATA_DIR, exist_ok=True)`, then `open(DATA_FILE, "w")` —
which truncates the canonical file in place — then `json.dump(data, f, ...)`
writing the encoded document into it.  `encoded` stands for the JSON text
produced by `json.dump`. -/
def save_registrations (encoded : String) : List FsOp :=
  [FsOp.makeDirs DATA_DIR, FsOp.truncOpenWrite DATA_FILE,
   FsOp.writeContent DATA_FILE encoded]

/-- A file system as an association list from paths to contents; the most
recent binding for a path shadows older ones. -/
def setFile (fs : List (String × String)) (p c : String) :
    List (String × String) :=
  (p, c) :: fs

/-- Remove a path's bindings (used by `rename`). -/
def removeFile (fs : List (String × String)) (p : String) :
    List (String × String) :=
  fs.filter (fun kv => !(kv.1 == p))

/-- Effect of one file-system operation. -/
def applyFsOp (fs : List (String × String)) (op : FsOp) :
    List (String × String) :=
  match op with
  | .makeDirs _ => fs
  | .truncOpenWrite p => setFile fs p ""
  | .writeContent p c => setFile fs p c
  | .rename src dst =>
    match fs.lookup src with
    | some c => setFile (removeFile fs src) dst c
    | none => fs

/-- Replay a prefix of an operation trace; a crash during a write is
modelled by replaying only the operations that completed. -/
def replayFs (fs : List (String × String)) (ops : List FsOp) :
    List (String × String) :=
  ops.foldl applyFsOp fs

/-- Content of a path after replay. -/
def fileContent (fs : List (String × String)) (p : String) : Option String :=
  fs.lookup p

/-- The discipline the specification prescribes for a persisted document
`doc`, stated from the spec's words (refinement target, not from the
source): the complete updated document is written to a side location and the
canonical location is atomically replaced by a rename, and the canonical
file is never mutated in place (neither truncated nor written directly). -/
def AtomicReplaceDiscipline (doc : String) (t : List FsOp) : Prop :=
  (∃ side, side ≠ DATA_FILE ∧ FsOp.writeContent side doc ∈ t ∧
    FsOp.rename side DATA_FILE ∈ t) ∧
  FsOp.truncOpenWrite DATA_FILE ∉ t ∧
  ∀ c, FsOp.writeContent DATA_FILE c ∉ t

/-! ### Loading (`read_registrations`, `server.py` lines 43-51) -/

/-- JSON values, as produced by `json.loads`.  Objects are association
lists (JSON objects have unique keys, the lookup takes the first binding). -/
inductive Json where
  | null
  | bool (b : Bool)
  | num (n : Int)
  | str (s : String)
  | arr (xs : List Json)
  | obj (kvs : List (String × Json))

/-- Storage failures surfaced by the load path: `json.loads` raising
`json.JSONDecodeError` on undecodable content, which propagates out of
`read_registrations` uncaught. -/
inductive StorageError where
  | jsonDecodeError
deriving DecidableEq

/-- The observable condition of the backing document, indexing the branches
of `read_registrations`: the file is absent (`os.path.exists` is false); it
exists but its content is blank after `strip()`; it exists with non-blank
content on which `json.loads` raises; or it exists with non-blank content
that decodes to the JSON value `j`. -/
inductive RawDoc where
  | absent
  | blankFile
  | malformed
  | parsed (j : Json)

/-- `read_registrations()` (lines 43-51): absent file and blank content
yield the empty list; undecodable content propagates the decode error;
decoded content is returned when it is a list and replaced by the empty
list otherwise (`return data if isinstance(data, list) else []`). -/
def read_registrations : RawDoc → Except StorageError (List Json)
  | .absent => .ok []
  | .blankFile => .ok []
  | .malformed => .error .jsonDecodeError
  | .parsed (.arr xs) => .ok xs
  | .parsed _ => .ok []

/-- `Except` success test. -/
def isOkE {ε α : Type} : Except ε α → Bool
  | .ok _ => true
  | .error _ => false

/-! ### Report generation (`make_xlsx`, `server.py` lines 64-144) -/

/-- A spreadsheet cell value: `make_xlsx` writes the row number as an
integer and every other column as a string. -/
inductive Cell where
  | n (v : Nat)
  | s (v : String)
deriving DecidableEq

/-- The `headers` list of `make_xlsx` (lines 69-73). -/
def headers : List String :=
  ["№", "Дата заявки", "Фамилия", "Имя", "Отчество",
   "Дата рождения", "Пол", "Страна", "Город",
   "Звание", "Команда", "Класс лодки", "Телефон", "Дистанции"]

/-- The `row_data` list for position `i` (1-based) and registration `reg`
(lines 109-124); the `distances` list is joined with `", "`. -/
def rowData (i : Nat) (reg : Registration) : List Cell :=
  [.n i, .s reg.timestamp, .s reg.surname, .s reg.firstname,
   .s reg.patronymic, .s reg.birthdate, .s reg.gender, .s reg.country,
   .s reg.city, .s reg.rank, .s reg.team, .s reg.boat_class, .s reg.phone,
   .s (String.intercalate ", " reg.distances)]

/-- The data-row loop `for i, reg in enumerate(registrations, 1)`
(lines 107-135), carrying the 1-based counter. -/
def dataRows (i : Nat) : List Registration → List (List Cell)
  | [] => []
  | r :: rs => rowData i r :: dataRows (i + 1) rs

/-- The cell grid written by `make_xlsx` (lines 64-144): the header row
followed by one data row per registration, numbered from 1.  (Styling —
fonts, fills keyed on row parity, widths — carries no data and is not
modelled.) -/
def make_xlsx (registrations : List Registration) : List (List Cell) :=
  (headers.map Cell.s) :: dataRows 1 registrations

/-! ### Admin authorization (`server.py` lines 157-177 and 188-207) -/

/-- The 401 body `{"success": false, "error": "Неверный токен"}` message. -/
def errTokenMsg : String := "Неверный токен"

/-- Responses of the two admin operations. -/
inductive ApiResponse where
  | authFail (status : Nat) (errorMsg : String)
  | listOk (count : Nat) (data : List Registration)
  | exportOk (rows : List (List Cell))
deriving DecidableEq

/-- `GET /api` (lines 166-177): `_check_admin_token` compares the supplied
header token with `ADMIN_TOKEN` by equality; on mismatch a 401 with a fixed
error body, otherwise the full persisted collection and its count. -/
def handle_list (token secret : String) (store : List Registration) :
    ApiResponse :=
  if token = secret then .listOk store.length store
  else .authFail 401 errTokenMsg

/-- `POST /api/export` (lines 188-207): same token check; on success the
spreadsheet built from the persisted collection. -/
def handle_export (token secret : String) (store : List Registration) :
    ApiResponse :=
  if token = secret then .exportOk (make_xlsx store)
  else .authFail 401 errTokenMsg

/-! ### The dynamic (duck-typed) submission path
(`Handler.do_POST`, `server.py` lines 214-233) over raw JSON -/

/-- Python runtime exceptions that the validation section can raise when
the decoded body is not an object of strings. -/
inductive PyExn where
  | attributeError (method : String)
  | typeError (msg : String)
  | keyError (key : String)
deriving DecidableEq

/-- `body.get(key, dflt)`: only dictionaries have `get`; every other JSON
value raises `AttributeError`. -/
def pyGetDefault (body : Json) (key : String) (dflt : Json) :
    Except PyExn Json :=
  match body with
  | .obj kvs => .ok ((kvs.lookup key).getD dflt)
  | _ => .error (.attributeError "get")

/-- `v.strip()`: only strings have `strip`; other values raise
`AttributeError`. -/
def pyStripJson : Json → Except PyExn String
  | .str s => .ok (pyStrip s)
  | _ => .error (.attributeError "strip")

/-- `body[key]`: dictionary item access; a missing key raises `KeyError`,
a non-dictionary raises `TypeError`. -/
def pyGetItem (body : Json) (key : String) : Except PyExn Json :=
  match body with
  | .obj kvs =>
    match kvs.lookup key with
    | some v => .ok v
    | none => .error (.keyError key)
  | _ => .error (.typeError "not subscriptable")

/-- `v in S` for a set `S` of strings: strings test membership, other
hashable values (numbers, booleans, `None`) are simply not members, and
unhashable values (lists, dictionaries) raise `TypeError`. -/
def pyMemStrSet (v : Json) (s : List String) : Except PyExn Bool :=
  match v with
  | .str x => .ok (decide (x ∈ s))
  | .arr _ => .error (.typeError "unhashable type")
  | .obj _ => .error (.typeError "unhashable type")
  | _ => .ok false

/-- The `for field in required` loop (lines 222-225) over a raw JSON body:
returns the first field whose `body.get(field, "").strip()` is empty, or
`none` when all pass, or the Python exception the loop raises. -/
def checkRequired (body : Json) : List String → Except PyExn (Option String)
  | [] => .ok none
  | f :: fs =>
    match pyGetDefault body f (.str "") with
    | .error e => .error e
    | .ok v =>
      match pyStripJson v with
      | .error e => .error e
      | .ok s => if s = "" then .ok (some f) else checkRequired body fs

/-- The validation section of `Handler.do_POST` (lines 220-233) over a raw
decoded JSON body, with Python's dynamic-typing failures explicit:
`.ok (some r)` is a per-field 400 rejection, `.ok none` means validation
passed, `.error e` is an uncaught Python exception. -/
def do_post_validation (body : Json) : Except PyExn (Option RejectionReason) :=
  match checkRequired body requiredFields with
  | .error e => .error e
  | .ok (some f) => .ok (some (.missingField f))
  | .ok none =>
    match pyGetItem body "gender" with
    | .error e => .error e
    | .ok g =>
      match pyMemStrSet g VALID_GENDERS with
      | .error e => .error e
      | .ok true =>
        match pyGetItem body "boat_class" with
        | .error e => .error e
        | .ok b =>
          match pyMemStrSet b VALID_BOATS with
          | .error e => .error e
          | .ok true => .ok none
          | .ok false => .ok (some .badBoatClass)
      | .ok false => .ok (some .badGender)

/-- The well-typed domain in which the rejection behaviour is guaranteed:
the body is a JSON object with unique keys whose required fields, where
present, hold strings. -/
def StrRequired (kvs : List (String × Json)) : Prop :=
  (kvs.map Prod.fst).Nodup ∧
  ∀ f ∈ requiredFields, ∀ v, kvs.lookup f = some v → ∃ s, v = Json.str s

/-! ### Spec-side predicate for the validation boundary (refinement target,
stated from the spec's words, to be compared with `validate`) -/

/-- The specification's rejection condition: some required field is missing
or blank after trimming, or the gender value is outside the fixed two-value
set, or the boat class is outside the fixed boat-category set. -/
def specRejectsSubmission (p : Payload) : Prop :=
  (∃ f ∈ requiredFields, pyStrip (getField p f) = "") ∨
  getField p "gender" ∉ VALID_GENDERS ∨
  getField p "boat_class" ∉ VALID_BOATS

/-! ### Example values used by concrete witnesses -/

/-- A fully valid example payload. -/
def pOk : Payload :=
  { surname := some "Иванов", firstname := some "Пётр",
    patronymic := some "Сергеевич", birthdate := some "1980-01-01",
    gender := some "М", country := some "Россия", city := some "Касимов",
    rank := some "КМС", team := some "Сынтул", boat_class := some "К-1",
    phone := some "+7 900 000-00-00",
    distances := some ["200 м", "bogus", "500 м"] }

/-- The valid payload with `team` removed (the spec's own boundary case). -/
def pNoTeam : Payload := { pOk with team := none }

/-- An example finalized registration. -/
def reg1 : Registration := mkEntry "reg_000000000001" "2026-01-01 10:00:00" pOk

/-- A second example registration with a distinct id. -/
def reg2 : Registration :=
  mkEntry "reg_000000000002" "2026-01-01 10:05:00" { pOk with surname := some "Петров" }

/-- A third example registration with a distinct id. -/
def reg3 : Registration :=
  mkEntry "reg_000000000003" "2026-01-01 10:10:00" { pOk with surname := some "Сидоров" }

/-- JSON encoding of a registration entry as `json.dump` writes it
(field order as in the `entry` dictionary, lines 240-255). -/
def encodeReg (r : Registration) : Json :=
  .obj [("id", .str r.id), ("timestamp", .str r.timestamp),
    ("surname", .str r.surname), ("firstname", .str r.firstname),
    ("patronymic", .str r.patronymic), ("birthdate", .str r.birthdate),
    ("gender", .str r.gender), ("country", .str r.country),
    ("city", .str r.city), ("rank", .str r.rank), ("team", .str r.team),
    ("boat_class", .str r.boat_class), ("phone", .str r.phone),
    ("distances", .arr (r.distances.map .str))]

/-! ## Theorems -/

/-- C1: appending the validated candidate `p` with fresh id `id` and
timestamp `ts` produces exactly the prior sequence followed by one
finalized entry: the length grows by one, the prefix of the prior length is
unchanged (no committed entry modified or reordered), the single new tail
entry is the finalized candidate carrying the fresh id and timestamp, and a
load of the persisted document returns the prior encoded sequence plus that
one entry. -/
theorem append_round_trip (s : List Registration) (id ts : String)
    (p : Payload) :
    (commitAppend s (mkEntry id ts p)).length = s.length + 1 ∧
    (commitAppend s (mkEntry id ts p)).take s.length = s ∧
    (commitAppend s (mkEntry id ts p)).drop s.length = [mkEntry id ts p] ∧
    (mkEntry id ts p).id = id ∧
    (mkEntry id ts p).timestamp = ts ∧
    (mkEntry id ts p).surname = sanitize (getField p "surname") ∧
    (mkEntry id ts p).gender = getField p "gender" ∧
    read_registrations (RawDoc.parsed (Json.arr
        ((commitAppend s (mkEntry id ts p)).map encodeReg))) =
      .ok (s.map encodeReg ++ [encodeReg (mkEntry id ts p)]) := by
  refine ⟨by simp [commitAppend], ?_, ?_, rfl, rfl, rfl, rfl, ?_⟩
  · exact List.take_left s [mkEntry id ts p]
  · exact List.drop_left s [mkEntry id ts p]
  · simp [commitAppend, read_registrations]

/-- C3 counterexample: the operation trace of `save_registrations` does not
follow the atomic-replace discipline — it truncates the canonical file in
place — and replaying only the operations that complete before the content
write (a failed write) leaves the canonical file empty, not holding the
previously committed document `"old"`. -/
theorem save_not_atomic_replace :
    ¬ AtomicReplaceDiscipline "[]" (save_registrations "[]") ∧
    fileContent (replayFs [(DATA_FILE, "old")]
      ((save_registrations "[]").take 2)) DATA_FILE = some "" ∧
    fileContent (replayFs [(DATA_FILE, "old")]
      ((save_registrations "[]").take 2)) DATA_FILE ≠ some "old" := by
  refine ⟨fun h => h.2.1 (by decide), rfl, by decide⟩

/-- C3 amended: `save_registrations` persists by truncating the canonical
file in place (`open(DATA_FILE, "w")`) and then writing the full updated
document into it; a completed write leaves the new document, but a write
that fails after the truncating open leaves the canonical file empty,
losing the previously committed document. -/
theorem save_truncates_in_place (encoded old : String) :
    save_registrations encoded =
      [FsOp.makeDirs DATA_DIR, FsOp.truncOpenWrite DATA_FILE,
       FsOp.writeContent DATA_FILE encoded] ∧
    fileContent (replayFs [(DATA_FILE, old)] (save_registrations encoded))
      DATA_FILE = some encoded ∧
    fileContent (replayFs [(DATA_FILE, old)]
      ((save_registrations encoded).take 2)) DATA_FILE = some "" :=
  ⟨rfl, rfl, rfl⟩

/-- C9: `read_registrations` yields the empty sequence when the backing
file is absent (and when it is blank) — a valid state, not an error — and
when the content is corrupted (undecodable), it propagates the decode
failure as an error result rather than returning registration data; decoded
list content is returned as is. -/
theorem load_absent_empty_corrupt_error (xs : List Json) :
    read_registrations .absent = .ok [] ∧
    read_registrations .blankFile = .ok [] ∧
    read_registrations .malformed = .error .jsonDecodeError ∧
    isOkE (read_registrations .malformed) = false ∧
    read_registrations (.parsed (.arr xs)) = .ok xs :=
  ⟨rfl, rfl, rfl, rfl, rfl⟩

/-- C5 counterexample: the distances filter preserves duplicates, so the
persisted `distances` field is not duplicate-free as a set would be — the
candidate list with `"200 м"` twice is persisted with `"200 м"` twice. -/
theorem distances_duplicates_persisted :
    filterDistances ["200 м", "200 м"] = ["200 м", "200 м"] ∧
    ¬ (filterDistances ["200 м", "200 м"]).Nodup ∧
    (mkEntry "reg_x" "t"
        { pOk with distances := some ["200 м", "200 м"] }).distances =
      ["200 м", "200 м"] := by
  exact ⟨rfl, by decide, rfl⟩

/-- C5 amended: the persisted `distances` field is the sublist of the
payload's candidate list keeping, in input order and with multiplicity,
exactly the values that belong to the fixed distance catalogue; unknown
entries are dropped without affecting acceptance, and the spec's example
input yields exactly its catalogued value. -/
theorem distances_filter_in_order (id ts : String) (p : Payload)
    (ds : List String) :
    (mkEntry id ts p).distances = filterDistances (p.distances.getD []) ∧
    List.Sublist (filterDistances ds) ds ∧
    (∀ d ∈ filterDistances ds, d ∈ VALID_DISTANCES ∧ d ∈ ds) ∧
    filterDistances ["200 м", "bogus"] = ["200 м"] ∧
    validate { p with distances := some ds } = validate p := by
  refine ⟨rfl, List.filter_sublist ds, ?_, by decide, rfl⟩
  intro d hd
  rw [filterDistances, List.mem_filter] at hd
  exact ⟨of_decide_eq_true hd.2, hd.1⟩

/-- C5 witness: the amended theorem applied at the spec's example input. -/
theorem distances_filter_in_order_witness :
    filterDistances ["200 м", "bogus"] = ["200 м"] ∧
    ("200 м" ∈ VALID_DISTANCES ∧ "200 м" ∈ ["200 м", "bogus"]) := by
  refine ⟨(distances_filter_in_order "i" "t" pOk ["200 м", "bogus"]).2.2.2.1, ?_⟩
  exact (distances_filter_in_order "i" "t" pOk
    ["200 м", "bogus"]).2.2.1 "200 м" (by decide)

/-- The per-character escape never emits a markup bracket. -/
theorem escapeChar_no_markup (c : Char) :
    '<' ∉ escapeChar c ∧ '>' ∉ escapeChar c := by
  unfold escapeChar
  split_ifs with h1 h2 h3 h4 h5
  · exact ⟨by decide, by decide⟩
  · exact ⟨by decide, by decide⟩
  · exact ⟨by decide, by decide⟩
  · exact ⟨by decide, by decide⟩
  · exact ⟨by decide, by decide⟩
  · constructor
    · intro hmem
      rw [List.mem_singleton] at hmem
      exact h2 hmem.symm
    · intro hmem
      rw [List.mem_singleton] at hmem
      exact h3 hmem.symm

/-- Sanitized output carries no markup brackets. -/
theorem sanitize_no_markup (s : String) :
    '<' ∉ (sanitize s).data ∧ '>' ∉ (sanitize s).data := by
  unfold sanitize htmlEscape
  constructor <;> intro hmem <;>
    · simp only [List.mem_flatten, List.mem_map] at hmem
      obtain ⟨xs, ⟨c, _, rfl⟩, hlt⟩ := hmem
      first
        | exact (escapeChar_no_markup c).1 hlt
        | exact (escapeChar_no_markup c).2 hlt

/-- C6: every free-text field of a persisted registration is the raw value
first trimmed of surrounding whitespace and then markup-escaped (gender and
boat class, being enum-checked, are stored verbatim); escaped output never
contains a markup bracket, and the spec's example surname is stored with
its tags escaped. -/
theorem free_text_sanitized (id ts : String) (p : Payload) (s : String) :
    (mkEntry id ts p).surname = htmlEscape (pyStrip (getField p "surname")) ∧
    (mkEntry id ts p).firstname = htmlEscape (pyStrip (getField p "firstname")) ∧
    (mkEntry id ts p).patronymic = htmlEscape (pyStrip (getField p "patronymic")) ∧
    (mkEntry id ts p).birthdate = htmlEscape (pyStrip (getField p "birthdate")) ∧
    (mkEntry id ts p).country = htmlEscape (pyStrip (getField p "country")) ∧
    (mkEntry id ts p).city = htmlEscape (pyStrip (getField p "city")) ∧
    (mkEntry id ts p).rank = htmlEscape (pyStrip (getField p "rank")) ∧
    (mkEntry id ts p).team = htmlEscape (pyStrip (getField p "team")) ∧
    (mkEntry id ts p).phone = htmlEscape (pyStrip (getField p "phone")) ∧
    '<' ∉ (sanitize s).data ∧ '>' ∉ (sanitize s).data ∧
    sanitize "<b>Иванов</b>" = "&lt;b&gt;Иванов&lt;/b&gt;" :=
  ⟨rfl, rfl, rfl, rfl, rfl, rfl, rfl, rfl, rfl,
   (sanitize_no_markup s).1, (sanitize_no_markup s).2, by decide⟩

/-- C6 witness: the theorem applied at the example payload and the spec's
example surname. -/
theorem free_text_sanitized_witness :
    (mkEntry "id1" "t1" pOk).surname =
      htmlEscape (pyStrip (getField pOk "surname")) ∧
    sanitize "<b>Иванов</b>" = "&lt;b&gt;Иванов&lt;/b&gt;" :=
  ⟨(free_text_sanitized "id1" "t1" pOk "x").1,
   (free_text_sanitized "id1" "t1" pOk "x").2.2.2.2.2.2.2.2.2.2.2⟩

/-- C7: with a credential different from the secret, the listing and export
responses are identical regardless of store contents — a fixed 401
authorization failure carrying no registration data — and with the correct
credential the listing returns exactly the persisted ordered collection and
its count (and export returns the report generated from it). -/
theorem admin_auth_gate (token secret : String)
    (s1 s2 store : List Registration) :
    (token ≠ secret →
      handle_list token secret s1 = handle_list token secret s2 ∧
      handle_list token secret s1 = .authFail 401 errTokenMsg ∧
      handle_export token secret s1 = handle_export token secret s2 ∧
      handle_export token secret s1 = .authFail 401 errTokenMsg) ∧
    (token = secret →
      handle_list token secret store = .listOk store.length store ∧
      handle_export token secret store = .exportOk (make_xlsx store)) := by
  constructor
  · intro h
    simp [handle_list, handle_export, h]
  · intro h
    simp [handle_list, handle_export, h]

/-- C7 witness: the theorem applied with a wrong and with the right
credential at concrete stores. -/
theorem admin_auth_gate_witness :
    handle_list "bad" "changeme" [] = handle_list "bad" "changeme" [reg1] ∧
    handle_list "bad" "changeme" [] = .authFail 401 errTokenMsg ∧
    handle_list "changeme" "changeme" [reg1] = .listOk 1 [reg1] := by
  have h1 := (admin_auth_gate "bad" "changeme" [] [reg1] []).1 (by decide)
  have h2 := (admin_auth_gate "changeme" "changeme" [] [] [reg1]).2 rfl
  exact ⟨h1.1, h1.2.1, h2.1⟩

/-- Sequential processing of appends appends the batch in order. -/
theorem runAppends_eq_append (s es : List Registration) :
    runAppends s es = s ++ es := by
  induction es generalizing s with
  | nil => simp [runAppends]
  | cons e es ih =>
    calc runAppends s (e :: es) = runAppends (s ++ [e]) es := rfl
    _ = (s ++ [e]) ++ es := ih (s ++ [e])
    _ = s ++ (e :: es) := by simp

/-- C4: the single-threaded server serializes the read-append-save section,
so each append reads the store left by all previously committed appends;
firing the batch `es` of finalized entries (in whatever arrival order the
transport delivers them) against an empty store yields exactly `es.length`
entries whose ids are exactly the batch's ids — distinct whenever the
freshly generated ids are — with no entry silently discarded. -/
theorem concurrent_appends_lossless (es arrival : List Registration)
    (hperm : arrival.Perm es)
    (hids : (es.map Registration.id).Nodup) :
    (runAppends [] arrival).length = es.length ∧
    ((runAppends [] arrival).map Registration.id).Nodup ∧
    ((runAppends [] arrival).map Registration.id).Perm
      (es.map Registration.id) := by
  rw [runAppends_eq_append, List.nil_append]
  exact ⟨hperm.length_eq, ((hperm.map Registration.id).nodup_iff).mpr hids,
    hperm.map Registration.id⟩

/-- C4 witness: three concurrent submissions arriving in a permuted order
commit three entries with three distinct ids. -/
theorem concurrent_appends_lossless_witness :
    (runAppends [] [reg2, reg1, reg3]).length = 3 ∧
    ((runAppends [] [reg2, reg1, reg3]).map Registration.id).Nodup := by
  have h := concurrent_appends_lossless [reg1, reg2, reg3] [reg2, reg1, reg3]
    (by decide) (by decide)
  exact ⟨h.1, h.2.1⟩

/-- The data-row block has one row per registration. -/
theorem dataRows_length (k : Nat) (regs : List Registration) :
    (dataRows k regs).length = regs.length := by
  induction regs generalizing k with
  | nil => rfl
  | cons r rs ih => simp [dataRows, ih]

/-- Indexing into the data-row block: position `i` holds the row built from
registration `i` with the running number `k + i`. -/
theorem dataRows_getElem? (k i : Nat) (regs : List Registration) :
    (dataRows k regs)[i]? = regs[i]?.map (fun r => rowData (k + i) r) := by
  induction regs generalizing k i with
  | nil => simp [dataRows]
  | cons r rs ih =>
    cases i with
    | zero => simp [dataRows]
    | succ j =>
      have hidx : k + 1 + j = k + (j + 1) := by omega
      simp [dataRows, ih (k + 1) j, hidx]

/-- Every data row has the fixed column count. -/
theorem dataRows_row_length (k : Nat) (regs : List Registration) :
    ∀ row ∈ dataRows k regs, row.length = 14 := by
  induction regs generalizing k with
  | nil => intro row h; cases h
  | cons r rs ih =>
    intro row h
    rcases List.mem_cons.mp h with h | h
    · subst h; rfl
    · exact ih (k + 1) row h

/-- C8: for `M` input registrations the generated report grid has exactly
`M + 1` rows — the fixed 14-title header first, then one data row per
registration in input order — where row `i + 1` is built from registration
`i`, its leading cell is the 1-based position `i + 1`, and its final cell
is the comma-joined distances text. -/
theorem export_shape (regs : List Registration) :
    (make_xlsx regs).length = regs.length + 1 ∧
    (make_xlsx regs).head? = some (headers.map Cell.s) ∧
    headers.length = 14 ∧
    (∀ row ∈ make_xlsx regs, row.length = 14) ∧
    (∀ i r, regs[i]? = some r →
      (make_xlsx regs)[i + 1]? = some (rowData (i + 1) r) ∧
      (rowData (i + 1) r).head? = some (.n (i + 1)) ∧
      (rowData (i + 1) r).getLast? =
        some (.s (String.intercalate ", " r.distances))) := by
  refine ⟨by simp [make_xlsx, dataRows_length], rfl, rfl, ?_, ?_⟩
  · intro row h
    rcases List.mem_cons.mp h with h | h
    · subst h; rfl
    · exact dataRows_row_length 1 regs row h
  · intro i r hir
    refine ⟨?_, rfl, rfl⟩
    show ((headers.map Cell.s) :: dataRows 1 regs)[i + 1]? = _
    rw [List.getElem?_cons_succ, dataRows_getElem?, hir]
    simp [Nat.add_comm]

/-- C8 witness: the theorem applied to a concrete two-registration store at
its second row. -/
theorem export_shape_witness :
    ([reg1, reg2][1]? = some reg2) ∧
    (make_xlsx [reg1, reg2]).length = 3 ∧
    (make_xlsx [reg1, reg2])[2]? = some (rowData 2 reg2) := by
  have h := export_shape [reg1, reg2]
  exact ⟨rfl, h.1, (h.2.2.2.2 1 reg2 rfl).1⟩

/-- C2: the validator rejects a (well-typed) payload exactly when some
required field is missing or blank after trimming, or the gender value is
outside the fixed two-value set, or the boat class is outside the fixed
boat-category set; a rejection that names a field names a required field
that really is blank, and the enum rejections really report out-of-set
values.  Every other payload is accepted. -/
theorem validation_boundary (p : Payload) :
    ((isOkE (validate p) = false) ↔ specRejectsSubmission p) ∧
    (∀ f, validate p = .error (.missingField f) →
      f ∈ requiredFields ∧ pyStrip (getField p f) = "") ∧
    (validate p = .error .badGender →
      getField p "gender" ∉ VALID_GENDERS) ∧
    (validate p = .error .badBoatClass →
      getField p "boat_class" ∉ VALID_BOATS) := by
  unfold validate specRejectsSubmission firstBlankRequired
  cases hf : requiredFields.find? (fun f => decide (pyStrip (getField p f) = "")) with
  | some f =>
    have hmem : f ∈ requiredFields := List.mem_of_find?_eq_some hf
    have hblank : pyStrip (getField p f) = "" := by
      have hpred := List.find?_some hf
      simpa using hpred
    refine ⟨?_, ?_, ?_, ?_⟩
    · exact ⟨fun _ => Or.inl ⟨f, hmem, hblank⟩, fun _ => rfl⟩
    · intro g hg
      have hfg : RejectionReason.missingField f = .missingField g := by
        injection hg
      have : f = g := by injection hfg
      subst this
      exact ⟨hmem, hblank⟩
    · intro hg
      have : RejectionReason.missingField f = .badGender := by injection hg
      cases this
    · intro hg
      have : RejectionReason.missingField f = .badBoatClass := by injection hg
      cases this
  | none =>
    have hnone := List.find?_eq_none.mp hf
    have hnoblank : ¬ ∃ f ∈ requiredFields, pyStrip (getField p f) = "" := by
      rintro ⟨f, hfm, hfb⟩
      exact hnone f hfm (decide_eq_true hfb)
    by_cases hg : getField p "gender" ∈ VALID_GENDERS
    · by_cases hb : getField p "boat_class" ∈ VALID_BOATS
      · refine ⟨?_, ?_, ?_, ?_⟩
        · rw [if_pos hg, if_pos hb]
          constructor
          · intro h; exact absurd h (by decide)
          · rintro (h | h | h)
            · exact (hnoblank h).elim
            · exact (h hg).elim
            · exact (h hb).elim
        · intro g hgg
          rw [if_pos hg, if_pos hb] at hgg
          cases hgg
        · intro hgg
          rw [if_pos hg, if_pos hb] at hgg
          cases hgg
        · intro hgg
          rw [if_pos hg, if_pos hb] at hgg
          cases hgg
      · refine ⟨?_, ?_, ?_, ?_⟩
        · rw [if_pos hg, if_neg hb]
          exact ⟨fun _ => Or.inr (Or.inr hb), fun _ => rfl⟩
        · intro g hgg
          rw [if_pos hg, if_neg hb] at hgg
          have : RejectionReason.badBoatClass = .missingField g := by
            injection hgg
          cases this
        · intro hgg
          rw [if_pos hg, if_neg hb] at hgg
          have : RejectionReason.badBoatClass = .badGender := by
            injection hgg
          cases this
        · intro _
          exact hb
    · refine ⟨?_, ?_, ?_, ?_⟩
      · rw [if_neg hg]
        exact ⟨fun _ => Or.inr (Or.inl hg), fun _ => rfl⟩
      · intro g hgg
        rw [if_neg hg] at hgg
        have : RejectionReason.badGender = .missingField g := by
          injection hgg
        cases this
      · intro _
        exact hg
      · intro hgg
        rw [if_neg hg] at hgg
        have : RejectionReason.badGender = .badBoatClass := by
          injection hgg
        cases this

/-- C2 witness: the theorem applied at the spec's boundary example — a
payload missing `team` is rejected citing `team` — and a fully valid
payload is accepted. -/
theorem validation_boundary_witness :
    validate pNoTeam = .error (.missingField "team") ∧
    ("team" ∈ requiredFields ∧ pyStrip (getField pNoTeam "team") = "") ∧
    isOkE (validate pOk) = true := by
  exact ⟨rfl, (validation_boundary pNoTeam).2.1 "team" rfl, rfl⟩

/-- On an object whose required fields hold strings where present, the
required-field loop never raises. -/
theorem checkRequired_str_ok (kvs : List (String × Json)) (fs : List String)
    (h : ∀ f ∈ fs, ∀ v, kvs.lookup f = some v → ∃ s, v = Json.str s) :
    ∃ r, checkRequired (.obj kvs) fs = .ok r := by
  induction fs with
  | nil => exact ⟨none, rfl⟩
  | cons f fs ih =>
    cases hlk : kvs.lookup f with
    | none =>
      refine ⟨some f, ?_⟩
      simp [checkRequired, pyGetDefault, hlk, pyStripJson,
        show pyStrip "" = "" from rfl]
    | some v =>
      obtain ⟨s, rfl⟩ := h f (List.mem_cons_self f fs) v hlk
      by_cases hs : pyStrip s = ""
      · exact ⟨some f,
          by simp [checkRequired, pyGetDefault, hlk, pyStripJson, hs]⟩
      · obtain ⟨r, hr⟩ :=
          ih (fun g hg w hw => h g (List.mem_cons_of_mem f hg) w hw)
        exact ⟨r,
          by simp [checkRequired, pyGetDefault, hlk, pyStripJson, hs, hr]⟩

/-- When the required-field loop passes, every checked field is present as
a non-blank string. -/
theorem checkRequired_none_str (kvs : List (String × Json)) (fs : List String)
    (hnone : checkRequired (.obj kvs) fs = .ok none) :
    ∀ f ∈ fs, ∃ s, kvs.lookup f = some (Json.str s) ∧ pyStrip s ≠ "" := by
  induction fs with
  | nil => intro f hf; cases hf
  | cons f fs ih =>
    rw [checkRequired] at hnone
    cases hlk : kvs.lookup f with
    | none =>
      simp [pyGetDefault, hlk, pyStripJson,
        show pyStrip "" = "" from rfl] at hnone
    | some v =>
      cases v with
      | str s =>
        simp only [pyGetDefault, hlk, Option.getD_some, pyStripJson] at hnone
        by_cases hs : pyStrip s = ""
        · rw [if_pos hs] at hnone
          cases hnone
        · rw [if_neg hs] at hnone
          intro g hg
          rcases List.mem_cons.mp hg with hgf | hgf
          · subst hgf
            exact ⟨s, hlk, hs⟩
          · exact ih hnone g hgf
      | null => simp [pyGetDefault, hlk, pyStripJson] at hnone
      | bool b => simp [pyGetDefault, hlk, pyStripJson] at hnone
      | num n => simp [pyGetDefault, hlk, pyStripJson] at hnone
      | arr xs => simp [pyGetDefault, hlk, pyStripJson] at hnone
      | obj o => simp [pyGetDefault, hlk, pyStripJson] at hnone

/-- C10: a syntactically valid JSON submission payload whose top level is
not an object (an empty array), and one whose required field holds a
number, both make the validation section of the submit handler raise an
uncaught Python exception instead of returning a malformed-request or
per-field rejection; whenever the payload is a JSON object whose required
fields are strings, the section completes without an exception, returning
either a per-field rejection or acceptance. -/
theorem submit_dynamic_typing_holes :
    do_post_validation (Json.arr []) = .error (.attributeError "get") ∧
    do_post_validation (Json.obj [("surname", Json.num 5)]) =
      .error (.attributeError "strip") ∧
    ∀ kvs, StrRequired kvs →
      isOkE (do_post_validation (Json.obj kvs)) = true := by
  refine ⟨rfl, rfl, ?_⟩
  rintro kvs ⟨-, hstr⟩
  obtain ⟨r, hr⟩ := checkRequired_str_ok kvs requiredFields hstr
  cases r with
  | some f => simp [do_post_validation, hr, isOkE]
  | none =>
    have hall := checkRequired_none_str kvs requiredFields hr
    obtain ⟨g, hg, -⟩ := hall "gender" (by decide)
    obtain ⟨b, hb, -⟩ := hall "boat_class" (by decide)
    cases hdg : decide (g ∈ VALID_GENDERS) with
    | false =>
      simp [do_post_validation, hr, pyGetItem, hg, pyMemStrSet, hdg, isOkE]
    | true =>
      cases hdb : decide (b ∈ VALID_BOATS) with
      | false =>
        simp [do_post_validation, hr, pyGetItem, hg, hb, pyMemStrSet,
          hdg, hdb, isOkE]
      | true =>
        simp [do_post_validation, hr, pyGetItem, hg, hb, pyMemStrSet,
          hdg, hdb, isOkE]

/-- C10 witness: the theorem applied at a concrete object whose only
binding holds a (blank) string: the guarantee domain is inhabited and the
section returns a result rather than raising. -/
theorem submit_dynamic_typing_holes_witness :
    StrRequired [("surname", Json.str "")] ∧
    isOkE (do_post_validation (Json.obj [("surname", Json.str "")])) =
      true := by
  have hsr : StrRequired [("surname", Json.str "")] := by
    refine ⟨by decide, ?_⟩
    intro f hf v hv
    by_cases h : f = "surname"
    · subst h
      simp [List.lookup] at hv
      exact ⟨"", hv.symm⟩
    · have hbe : (f == "surname") = false := beq_eq_false_iff_ne.mpr h
      simp [List.lookup, hbe] at hv
  exact ⟨hsr, submit_dynamic_typing_holes.2.2 _ hsr⟩

end SyntulMasters
